import Mathlib

/-!
Shallow embedding of the Fitness and Health Tracker application
(`MartinezAdamFinalProject.py`): the SQLite-backed record store
(tables `activities`, `nutrition`, `goals` created by `setup_database`),
the three form handlers `log_activity`, `log_nutrition`, `set_goals`,
the list formatters `load_activities` / `load_nutrition`, and the
goal-summary query of `open_summary_window`.

Modelling decisions:
* Each SQLite table is a Lean list of rows in insertion order, together
  with the table's AUTOINCREMENT counter (starting at 1, never reused
  after `DELETE` — SQLite `AUTOINCREMENT` semantics).
* The `date DATE DEFAULT (DATE('now'))` column is modelled by passing
  the current date string `today` into each insert.
* Python `int(str)` is modelled by `pythonInt`: strip surrounding
  whitespace, optional single sign, then decimal digits (underscore
  separators and non-ASCII digits of CPython are not modelled; no
  input in this development uses them).
* A handler returns the updated store together with `none` (success
  dialog shown) or `some e` (an error dialog shown and early return):
  `MissingField` stands for the "... required!" dialogs,
  `NotNumeric` for the "... must be a number/numbers!" dialogs.
-/

namespace FitnessTracker

/-- A row of the `activities` table:
`id PK AUTOINCREMENT, activity_name TEXT, duration INTEGER, intensity TEXT,
date DATE DEFAULT (DATE('now'))`. -/
structure ActivityRow where
  id : Nat
  activity_name : String
  duration : Int
  intensity : String
  date : String
deriving DecidableEq

/-- A row of the `nutrition` table:
`id PK AUTOINCREMENT, food_item TEXT, calories INTEGER, carbs INTEGER,
protein INTEGER, fats INTEGER, date DATE DEFAULT (DATE('now'))`. -/
structure NutritionRow where
  id : Nat
  food_item : String
  calories : Int
  carbs : Int
  protein : Int
  fats : Int
  date : String
deriving DecidableEq

/-- A row of the `goals` table:
`id PK AUTOINCREMENT, weekly_exercise_goal INTEGER, daily_calorie_limit INTEGER`. -/
structure GoalRow where
  id : Nat
  weekly_exercise_goal : Int
  daily_calorie_limit : Int
deriving DecidableEq

/-- The persisted state of `fitness_tracker.db`: the three tables in
insertion order plus each table's AUTOINCREMENT counter. -/
structure Store where
  activities : List ActivityRow
  nutrition : List NutritionRow
  goals : List GoalRow
  nextActivityId : Nat
  nextNutritionId : Nat
  nextGoalId : Nat
deriving DecidableEq

/-- `setup_database`: creates the three empty tables; SQLite
AUTOINCREMENT ids start at 1. -/
def setup_database : Store :=
  { activities := [], nutrition := [], goals := [],
    nextActivityId := 1, nextNutritionId := 1, nextGoalId := 1 }

/-- Strip leading and trailing whitespace from a character list, as
Python `int(str)` does before parsing. -/
def stripWs (cs : List Char) : List Char :=
  ((cs.dropWhile Char.isWhitespace).reverse.dropWhile Char.isWhitespace).reverse

/-- Parse a non-empty all-digit character list as a natural number. -/
def digitsToNat (ds : List Char) : Option Nat :=
  if ds = [] then none
  else if ds.all Char.isDigit then
    some (ds.foldl (fun a c => a * 10 + (c.toNat - 48)) 0)
  else none

/-- Model of Python `int(s)` on a decimal string: surrounding whitespace
is stripped, one optional sign, then at least one digit; anything else
raises `ValueError`, modelled as `none`. -/
def pythonInt (s : String) : Option Int :=
  match stripWs s.data with
  | '+' :: ds => (digitsToNat ds).map Int.ofNat
  | '-' :: ds => (digitsToNat ds).map (fun n => -(Int.ofNat n))
  | ds => (digitsToNat ds).map Int.ofNat

/-- The two validation-failure dialogs of the handlers: `MissingField`
for "All fields are required!" / "Food Item and Calories are required!",
`NotNumeric` for "Duration must be a number!" / "Calories, Carbs,
Protein, and Fats must be numbers!" / "Goals must be numbers!". -/
inductive ValidationError where
  | MissingField
  | NotNumeric
deriving DecidableEq

/-- `INSERT INTO activities (activity_name, duration, intensity) VALUES (?,?,?)`
with the `date` column defaulting to `today`. -/
def insert_activity (s : Store) (name : String) (duration : Int)
    (intensity : String) (today : String) : Store :=
  { s with
    activities :=
      s.activities ++ [⟨s.nextActivityId, name, duration, intensity, today⟩],
    nextActivityId := s.nextActivityId + 1 }

/-- `INSERT INTO nutrition (food_item, calories, carbs, protein, fats)
VALUES (?,?,?,?,?)` with the `date` column defaulting to `today`. -/
def insert_nutrition (s : Store) (food_item : String) (calories carbs protein fats : Int)
    (today : String) : Store :=
  { s with
    nutrition :=
      s.nutrition ++
        [⟨s.nextNutritionId, food_item, calories, carbs, protein, fats, today⟩],
    nextNutritionId := s.nextNutritionId + 1 }

/-- `DELETE FROM goals` — clears the goals table; the AUTOINCREMENT
counter is untouched. -/
def delete_goals (s : Store) : Store :=
  { s with goals := [] }

/-- `INSERT INTO goals (weekly_exercise_goal, daily_calorie_limit) VALUES (?,?)`. -/
def insert_goal (s : Store) (weekly daily : Int) : Store :=
  { s with
    goals := s.goals ++ [⟨s.nextGoalId, weekly, daily⟩],
    nextGoalId := s.nextGoalId + 1 }

/-- The `DELETE FROM goals` + `INSERT` pair executed by `set_goals`. -/
def replace_goal (s : Store) (weekly daily : Int) : Store :=
  insert_goal (delete_goals s) weekly daily

/-- `FitnessApp.log_activity`: the empty-field check (`not name or not
duration or not intensity`, Python falsiness of a string being `= ""`)
comes first, then `int(duration)`, then the insert. On an error dialog
the handler returns early and the store is untouched. -/
def log_activity (s : Store) (name duration intensity today : String) :
    Store × Option ValidationError :=
  if name = "" ∨ duration = "" ∨ intensity = "" then
    (s, some .MissingField)
  else
    match pythonInt duration with
    | none => (s, some .NotNumeric)
    | some d => (insert_activity s name d intensity today, none)

/-- `int(x) if x else 0` applied to each of carbs/protein/fats in
`log_nutrition`: empty input defaults to 0, non-empty input must parse. -/
def intOrZero (x : String) : Option Int :=
  if x = "" then some 0 else pythonInt x

/-- `FitnessApp.log_nutrition`: food item and calories must be non-empty,
then calories must parse and each macro must parse-or-default; a single
`except ValueError` covers all four conversions. -/
def log_nutrition (s : Store) (food_item calories carbs protein fats today : String) :
    Store × Option ValidationError :=
  if food_item = "" ∨ calories = "" then
    (s, some .MissingField)
  else
    match pythonInt calories, intOrZero carbs, intOrZero protein, intOrZero fats with
    | some c, some cb, some pr, some ft =>
        (insert_nutrition s food_item c cb pr ft today, none)
    | _, _, _, _ => (s, some .NotNumeric)

/-- `FitnessApp.set_goals`: both fields non-empty, both must parse as
integers, then `DELETE FROM goals` and insert the single new row. -/
def set_goals (s : Store) (exercise_goal calorie_limit : String) :
    Store × Option ValidationError :=
  if exercise_goal = "" ∨ calorie_limit = "" then
    (s, some .MissingField)
  else
    match pythonInt exercise_goal, pythonInt calorie_limit with
    | some w, some d => (replace_goal s w d, none)
    | _, _ => (s, some .NotNumeric)

/-- `SELECT activity_name, duration, intensity, date FROM activities`
(storage order = insertion order). -/
def list_activities (s : Store) : List ActivityRow :=
  s.activities

/-- `SELECT food_item, calories, carbs, protein, fats, date FROM nutrition`. -/
def list_nutrition (s : Store) : List NutritionRow :=
  s.nutrition

/-- Accumulator keeping the row of greatest `id` seen so far. -/
def goalMaxAcc (acc : Option GoalRow) (r : GoalRow) : Option GoalRow :=
  match acc with
  | none => some r
  | some b => if b.id ≤ r.id then some r else some b

/-- `SELECT weekly_exercise_goal, daily_calorie_limit FROM goals ORDER BY
id DESC LIMIT 1` as run by `open_summary_window`: the stored goal row of
greatest id, or `none` when the table is empty. -/
def latest_goal (s : Store) : Option GoalRow :=
  s.goals.foldl goalMaxAcc none

/-- The display line `f"{name} - {dur} min - {intensity} - {date}\n"`
written into the activity list widget. -/
def activityLine (r : ActivityRow) : String :=
  r.activity_name ++ " - " ++ toString r.duration ++ " min - " ++
    r.intensity ++ " - " ++ r.date ++ "\n"

/-- The display line `f"{food} - {cal} cal - {carbs}g carbs - {protein}g
protein - {fats}g fats - {date}\n"` written into the nutrition list widget. -/
def nutritionLine (r : NutritionRow) : String :=
  r.food_item ++ " - " ++ toString r.calories ++ " cal - " ++
    toString r.carbs ++ "g carbs - " ++ toString r.protein ++ "g protein - " ++
    toString r.fats ++ "g fats - " ++ r.date ++ "\n"

/-- View refresh of `FitnessApp.load_activities`: one line per fetched
record, or the single "No activities logged yet." line when the query
returns nothing. -/
def load_activities (records : List ActivityRow) : List String :=
  if records.isEmpty then ["No activities logged yet.\n"]
  else records.map activityLine

/-- View refresh of `FitnessApp.load_nutrition`: one line per fetched
record, or the single "No nutrition records found." line. -/
def load_nutrition (records : List NutritionRow) : List String :=
  if records.isEmpty then ["No nutrition records found.\n"]
  else records.map nutritionLine

/-- One user-triggered callback of the application; the raw strings are
exactly what the Tk entry widgets hand to the handler, and `today` is
the date SQLite's `DATE('now')` would assign during that callback. -/
inductive Op where
  | logActivity (name duration intensity today : String)
  | logNutrition (food_item calories carbs protein fats today : String)
  | setGoals (exercise_goal calorie_limit : String)
  | viewSummary
  | refreshActivities
  | refreshNutrition
deriving DecidableEq

/-- Effect of one callback on the persisted store: the three submit
handlers run their validation + insert cycle; the summary window and
list refreshes only read. -/
def step (s : Store) : Op → Store
  | .logActivity n d i t => (log_activity s n d i t).1
  | .logNutrition fo ca cb pr ft t => (log_nutrition s fo ca cb pr ft t).1
  | .setGoals e c => (set_goals s e c).1
  | .viewSummary => s
  | .refreshActivities => s
  | .refreshNutrition => s

/-- The store after `setup_database` followed by a sequence of callbacks. -/
def run (ops : List Op) : Store :=
  ops.foldl step setup_database

/-- A store state the application can actually be in. -/
def Reachable (s : Store) : Prop :=
  ∃ ops : List Op, run ops = s

/-- Whether a callback performs a successful goal replacement: it is a
`set_goals` submission that passes both validation checks (this does not
depend on the store). -/
def goalSucceeds : Op → Bool
  | .setGoals e c =>
      !(e == "" || c == "") && (pythonInt e).isSome && (pythonInt c).isSome
  | _ => false

example : pythonInt "30" = some 30 := by decide
example : pythonInt "abc" = none := by decide
example : pythonInt "" = none := by decide
example : pythonInt " " = none := by decide
example : pythonInt " -42 " = some (-42) := by decide
example : pythonInt "+7" = some 7 := by decide
example :
    activityLine ⟨1, "Running", 30, "High", "2024-12-09"⟩ =
      "Running - 30 min - High - 2024-12-09\n" := by decide

/-! ### Frame lemmas: each handler touches only its own table -/

theorem log_activity_frame (s : Store) (n d i t : String) :
    (log_activity s n d i t).1.nutrition = s.nutrition ∧
    (log_activity s n d i t).1.goals = s.goals ∧
    (log_activity s n d i t).1.nextNutritionId = s.nextNutritionId ∧
    (log_activity s n d i t).1.nextGoalId = s.nextGoalId := by
  unfold log_activity
  split
  · exact ⟨rfl, rfl, rfl, rfl⟩
  · split <;> simp [insert_activity]

theorem log_nutrition_frame (s : Store) (fo ca cb pr ft t : String) :
    (log_nutrition s fo ca cb pr ft t).1.activities = s.activities ∧
    (log_nutrition s fo ca cb pr ft t).1.goals = s.goals ∧
    (log_nutrition s fo ca cb pr ft t).1.nextActivityId = s.nextActivityId ∧
    (log_nutrition s fo ca cb pr ft t).1.nextGoalId = s.nextGoalId := by
  unfold log_nutrition
  split
  · exact ⟨rfl, rfl, rfl, rfl⟩
  · split <;> simp [insert_nutrition]

theorem set_goals_frame (s : Store) (e c : String) :
    (set_goals s e c).1.activities = s.activities ∧
    (set_goals s e c).1.nutrition = s.nutrition ∧
    (set_goals s e c).1.nextActivityId = s.nextActivityId ∧
    (set_goals s e c).1.nextNutritionId = s.nextNutritionId := by
  unfold set_goals
  split
  · exact ⟨rfl, rfl, rfl, rfl⟩
  · split <;> simp [replace_goal, insert_goal, delete_goals]

/-! ### Validation-failure lemmas: an error dialog means no write -/

theorem log_activity_cases (s : Store) (n d i t : String) :
    (log_activity s n d i t).1 = s ∨ (log_activity s n d i t).2 = none := by
  unfold log_activity
  split
  · exact Or.inl rfl
  · split
    · exact Or.inl rfl
    · exact Or.inr rfl

theorem log_nutrition_cases (s : Store) (fo ca cb pr ft t : String) :
    (log_nutrition s fo ca cb pr ft t).1 = s ∨
    (log_nutrition s fo ca cb pr ft t).2 = none := by
  unfold log_nutrition
  split
  · exact Or.inl rfl
  · split
    · exact Or.inr rfl
    · exact Or.inl rfl

theorem set_goals_cases (s : Store) (e c : String) :
    (set_goals s e c).1 = s ∨ (set_goals s e c).2 = none := by
  unfold set_goals
  split
  · exact Or.inl rfl
  · split
    · exact Or.inr rfl
    · exact Or.inl rfl

theorem log_activity_err_unchanged (s : Store) (n d i t : String)
    (h : (log_activity s n d i t).2.isSome) : (log_activity s n d i t).1 = s := by
  rcases log_activity_cases s n d i t with h1 | h1
  · exact h1
  · rw [h1] at h; simp at h

theorem log_nutrition_err_unchanged (s : Store) (fo ca cb pr ft t : String)
    (h : (log_nutrition s fo ca cb pr ft t).2.isSome) :
    (log_nutrition s fo ca cb pr ft t).1 = s := by
  rcases log_nutrition_cases s fo ca cb pr ft t with h1 | h1
  · exact h1
  · rw [h1] at h; simp at h

theorem set_goals_err_unchanged (s : Store) (e c : String)
    (h : (set_goals s e c).2.isSome) : (set_goals s e c).1 = s := by
  rcases set_goals_cases s e c with h1 | h1
  · exact h1
  · rw [h1] at h; simp at h

/-! ### Success-path lemmas -/

theorem pythonInt_empty : pythonInt "" = none := by decide

theorem pythonInt_ne_empty {dur : String} {d : Int}
    (hd : pythonInt dur = some d) : dur ≠ "" := by
  intro h
  subst h
  rw [pythonInt_empty] at hd
  cases hd

theorem log_activity_success (s : Store) (n dur i t : String) (d : Int)
    (hn : n ≠ "") (hi : i ≠ "") (hd : pythonInt dur = some d) :
    log_activity s n dur i t = (insert_activity s n d i t, none) := by
  have hdur : dur ≠ "" := pythonInt_ne_empty hd
  unfold log_activity
  rw [if_neg (by simp [hn, hdur, hi]), hd]

theorem log_nutrition_success (s : Store) (fo ca cb pr ft t : String)
    (c cbv prv ftv : Int) (hf : fo ≠ "") (hc : pythonInt ca = some c)
    (hcb : intOrZero cb = some cbv) (hpr : intOrZero pr = some prv)
    (hft : intOrZero ft = some ftv) :
    log_nutrition s fo ca cb pr ft t =
      (insert_nutrition s fo c cbv prv ftv t, none) := by
  have hca : ca ≠ "" := pythonInt_ne_empty hc
  unfold log_nutrition
  rw [if_neg (by simp [hf, hca]), hc, hcb, hpr, hft]

theorem set_goals_success (s : Store) (e c : String) (w d : Int)
    (hw : pythonInt e = some w) (hd : pythonInt c = some d) :
    set_goals s e c = (replace_goal s w d, none) := by
  have he : e ≠ "" := pythonInt_ne_empty hw
  have hc : c ≠ "" := pythonInt_ne_empty hd
  unfold set_goals
  rw [if_neg (by simp [he, hc]), hw, hd]

theorem set_goals_fail_unchanged (s : Store) (e c : String)
    (h : e = "" ∨ c = "" ∨ pythonInt e = none ∨ pythonInt c = none) :
    (set_goals s e c).1 = s := by
  unfold set_goals
  by_cases hc : e = "" ∨ c = ""
  · rw [if_pos hc]
  · rw [if_neg hc]
    push_neg at hc
    rcases h with h | h | h | h
    · exact absurd h hc.1
    · exact absurd h hc.2
    · rw [h]
    · rw [h]; cases pythonInt e <;> rfl

theorem goalSucceeds_iff (e c : String) :
    goalSucceeds (.setGoals e c) = true ↔
      (e ≠ "" ∧ c ≠ "" ∧ (pythonInt e).isSome ∧ (pythonInt c).isSome) := by
  unfold goalSucceeds
  simp [and_assoc]

theorem goalSucceeds_false_elim (e c : String)
    (h : goalSucceeds (.setGoals e c) = false) :
    e = "" ∨ c = "" ∨ pythonInt e = none ∨ pythonInt c = none := by
  by_contra hcon
  push_neg at hcon
  rw [(goalSucceeds_iff e c).mpr
    ⟨hcon.1, hcon.2.1,
     Option.ne_none_iff_isSome.mp hcon.2.2.1,
     Option.ne_none_iff_isSome.mp hcon.2.2.2⟩] at h
  cases h

theorem set_goals_fail_err (s : Store) (e c : String)
    (h : e = "" ∨ c = "" ∨ pythonInt e = none ∨ pythonInt c = none) :
    (set_goals s e c).2.isSome := by
  unfold set_goals
  by_cases hc : e = "" ∨ c = ""
  · rw [if_pos hc]; rfl
  · rw [if_neg hc]
    push_neg at hc
    rcases h with h | h | h | h
    · exact absurd h hc.1
    · exact absurd h hc.2
    · rw [h]; cases pythonInt c <;> rfl
    · rw [h]; cases pythonInt e <;> rfl

/-- `goalSucceeds` is exactly "the `set_goals` handler showed the
success dialog", for every store. -/
theorem set_goals_ok_iff (s : Store) (e c : String) :
    (set_goals s e c).2 = none ↔ goalSucceeds (.setGoals e c) = true := by
  constructor
  · intro h
    cases hg : goalSucceeds (.setGoals e c) with
    | true => rfl
    | false =>
        have hsome := set_goals_fail_err s e c (goalSucceeds_false_elim e c hg)
        rw [h] at hsome
        cases hsome
  · intro h
    obtain ⟨he, hc, hw, hd⟩ := (goalSucceeds_iff e c).mp h
    obtain ⟨w, hw⟩ := Option.isSome_iff_exists.mp hw
    obtain ⟨d, hd⟩ := Option.isSome_iff_exists.mp hd
    rw [set_goals_success s e c w d hw hd]

/-! ### Evolution of the goals table under callbacks -/

theorem replace_goal_goals (s : Store) (w d : Int) :
    (replace_goal s w d).goals = [⟨s.nextGoalId, w, d⟩] := by
  simp [replace_goal, insert_goal, delete_goals]

theorem step_goals_of_fail (s : Store) (op : Op) (h : goalSucceeds op = false) :
    (step s op).goals = s.goals := by
  cases op with
  | logActivity n d i t => exact (log_activity_frame s n d i t).2.1
  | logNutrition fo ca cb pr ft t => exact (log_nutrition_frame s fo ca cb pr ft t).2.1
  | setGoals e c =>
      have hfail : e = "" ∨ c = "" ∨ pythonInt e = none ∨ pythonInt c = none := by
        by_contra hcon
        push_neg at hcon
        have hok : goalSucceeds (.setGoals e c) = true :=
          (goalSucceeds_iff e c).mpr
            ⟨hcon.1, hcon.2.1,
             Option.ne_none_iff_isSome.mp hcon.2.2.1,
             Option.ne_none_iff_isSome.mp hcon.2.2.2⟩
        rw [hok] at h
        cases h
      show ((set_goals s e c).1).goals = s.goals
      rw [set_goals_fail_unchanged s e c hfail]
  | viewSummary => rfl
  | refreshActivities => rfl
  | refreshNutrition => rfl

theorem step_goals_of_ok (s : Store) (op : Op) (h : goalSucceeds op = true) :
    ∃ w d : Int, (step s op).goals = [⟨s.nextGoalId, w, d⟩] := by
  cases op with
  | setGoals e c =>
      obtain ⟨he, hc, hw, hd⟩ := (goalSucceeds_iff e c).mp h
      obtain ⟨w, hw⟩ := Option.isSome_iff_exists.mp hw
      obtain ⟨d, hd⟩ := Option.isSome_iff_exists.mp hd
      refine ⟨w, d, ?_⟩
      show ((set_goals s e c).1).goals = _
      rw [set_goals_success s e c w d hw hd]
      exact replace_goal_goals s w d
  | logActivity n d i t => simp [goalSucceeds] at h
  | logNutrition fo ca cb pr ft t => simp [goalSucceeds] at h
  | viewSummary => simp [goalSucceeds] at h
  | refreshActivities => simp [goalSucceeds] at h
  | refreshNutrition => simp [goalSucceeds] at h

theorem foldl_goals_le_one (ops : List Op) :
    ∀ s : Store, s.goals.length ≤ 1 → (ops.foldl step s).goals.length ≤ 1 := by
  induction ops with
  | nil => exact fun s hs => hs
  | cons op ops ih =>
      intro s hs
      rw [List.foldl_cons]
      apply ih
      cases hop : goalSucceeds op with
      | false => rw [step_goals_of_fail s op hop]; exact hs
      | true =>
          obtain ⟨w, d, hg⟩ := step_goals_of_ok s op hop
          rw [hg]
          simp

theorem foldl_goals_empty_iff (ops : List Op) :
    ∀ s : Store, ((ops.foldl step s).goals = []) ↔
      (s.goals = [] ∧ ∀ op ∈ ops, goalSucceeds op = false) := by
  induction ops with
  | nil => intro s; simp
  | cons op ops ih =>
      intro s
      rw [List.foldl_cons, ih (step s op)]
      cases hop : goalSucceeds op with
      | false =>
          rw [step_goals_of_fail s op hop]
          simp [hop]
      | true =>
          obtain ⟨w, d, hg⟩ := step_goals_of_ok s op hop
          rw [hg]
          simp [hop]

theorem foldl_goalMaxAcc_some_ne_none (l : List GoalRow) :
    ∀ g : GoalRow, l.foldl goalMaxAcc (some g) ≠ none := by
  induction l with
  | nil => intro g h; cases h
  | cons r l ih =>
      intro g
      rw [List.foldl_cons]
      show l.foldl goalMaxAcc (if g.id ≤ r.id then some r else some g) ≠ none
      by_cases h : g.id ≤ r.id
      · rw [if_pos h]; exact ih r
      · rw [if_neg h]; exact ih g

theorem latest_goal_eq_none_iff (s : Store) :
    latest_goal s = none ↔ s.goals = [] := by
  unfold latest_goal
  cases hg : s.goals with
  | nil => simp
  | cons r l =>
      rw [List.foldl_cons]
      constructor
      · intro h
        exact absurd h (foldl_goalMaxAcc_some_ne_none l r)
      · intro h
        cases h

/-! ### Freshness of AUTOINCREMENT activity ids -/

/-- Every stored activity id is below the table's AUTOINCREMENT counter. -/
def ActivityIdsBounded (s : Store) : Prop :=
  ∀ r ∈ s.activities, r.id < s.nextActivityId

theorem step_preserves_activityIdsBounded (s : Store) (op : Op)
    (h : ActivityIdsBounded s) : ActivityIdsBounded (step s op) := by
  cases op with
  | logActivity n dur i t =>
      show ActivityIdsBounded (log_activity s n dur i t).1
      unfold log_activity
      split
      · exact h
      · split
        · exact h
        · intro r hr
          simp only [insert_activity, List.mem_append, List.mem_singleton] at hr
          rcases hr with hr | hr
          · exact Nat.lt_succ_of_lt (h r hr)
          · subst hr; exact Nat.lt_succ_self _
  | logNutrition fo ca cb pr ft t =>
      have hf := log_nutrition_frame s fo ca cb pr ft t
      show ∀ r ∈ (log_nutrition s fo ca cb pr ft t).1.activities,
        r.id < (log_nutrition s fo ca cb pr ft t).1.nextActivityId
      rw [hf.1, hf.2.2.1]
      exact h
  | setGoals e c =>
      have hf := set_goals_frame s e c
      show ∀ r ∈ (set_goals s e c).1.activities,
        r.id < (set_goals s e c).1.nextActivityId
      rw [hf.1, hf.2.2.1]
      exact h
  | viewSummary => exact h
  | refreshActivities => exact h
  | refreshNutrition => exact h

theorem foldl_preserves_activityIdsBounded (ops : List Op) :
    ∀ s : Store, ActivityIdsBounded s → ActivityIdsBounded (ops.foldl step s) := by
  induction ops with
  | nil => exact fun s hs => hs
  | cons op ops ih =>
      intro s hs
      rw [List.foldl_cons]
      exact ih (step s op) (step_preserves_activityIdsBounded s op hs)

theorem reachable_activityIdsBounded (s : Store) (h : Reachable s) :
    ActivityIdsBounded s := by
  obtain ⟨ops, rfl⟩ := h
  unfold run
  apply foldl_preserves_activityIdsBounded
  intro r hr
  cases hr

/-! ### Claim theorems -/

/-- C1: starting from the empty schema, every sequence of callbacks
(activity/nutrition inserts, goal replacement, list and summary reads)
leaves at most one row in the goals table, and each single operation
preserves that invariant. -/
theorem C1_goals_at_most_one :
    (∀ ops : List Op, (run ops).goals.length ≤ 1) ∧
    (∀ (s : Store) (op : Op), s.goals.length ≤ 1 → (step s op).goals.length ≤ 1) := by
  constructor
  · intro ops
    unfold run
    apply foldl_goals_le_one
    simp [setup_database]
  · intro s op hs
    cases hop : goalSucceeds op with
    | false => rw [step_goals_of_fail s op hop]; exact hs
    | true =>
        obtain ⟨w, d, hg⟩ := step_goals_of_ok s op hop
        rw [hg]
        simp

/-- Witness for C1 at a concrete run and a concrete single step. -/
theorem C1_goals_at_most_one_witness :
    (run [.setGoals "5" "2000", .setGoals "7" "1800"]).goals.length ≤ 1 ∧
    (step setup_database (.setGoals "7" "1800")).goals.length ≤ 1 :=
  ⟨C1_goals_at_most_one.1 [.setGoals "5" "2000", .setGoals "7" "1800"],
   C1_goals_at_most_one.2 setup_database (.setGoals "7" "1800") (by decide)⟩

/-- C2: after any positive number of valid goal submissions the goals
table holds exactly one row whose fields are the last call's parsed
arguments, and `latest_goal` returns precisely that row. -/
theorem C2_replace_goal_last_wins (s : Store) (qs : List (String × String))
    (p : String × String)
    (hv : ∀ q ∈ qs ++ [p],
      q.1 ≠ "" ∧ q.2 ≠ "" ∧ (pythonInt q.1).isSome ∧ (pythonInt q.2).isSome) :
    ∃ g : GoalRow,
      ((qs ++ [p]).foldl (fun t q => (set_goals t q.1 q.2).1) s).goals = [g] ∧
      latest_goal ((qs ++ [p]).foldl (fun t q => (set_goals t q.1 q.2).1) s) = some g ∧
      pythonInt p.1 = some g.weekly_exercise_goal ∧
      pythonInt p.2 = some g.daily_calorie_limit := by
  obtain ⟨hp1, hp2, hw, hd⟩ := hv p (by simp)
  obtain ⟨w, hw⟩ := Option.isSome_iff_exists.mp hw
  obtain ⟨d, hd⟩ := Option.isSome_iff_exists.mp hd
  rw [List.foldl_append, List.foldl_cons, List.foldl_nil]
  set s0 := qs.foldl (fun t q => (set_goals t q.1 q.2).1) s with hs0
  refine ⟨⟨s0.nextGoalId, w, d⟩, ?_, ?_, ?_, ?_⟩
  · show ((set_goals s0 p.1 p.2).1).goals = _
    rw [set_goals_success s0 p.1 p.2 w d hw hd]
    exact replace_goal_goals s0 w d
  · show latest_goal ((set_goals s0 p.1 p.2).1) = _
    rw [set_goals_success s0 p.1 p.2 w d hw hd]
    show latest_goal (replace_goal s0 w d) = _
    unfold latest_goal
    rw [replace_goal_goals s0 w d]
    rfl
  · exact hw
  · exact hd

/-- Witness for C2: set goals (5, 2000) then (7, 1800). -/
theorem C2_replace_goal_last_wins_witness :
    ∃ g : GoalRow,
      (([("5", "2000")] ++ [("7", "1800")]).foldl
        (fun t q => (set_goals t q.1 q.2).1) setup_database).goals = [g] ∧
      latest_goal (([("5", "2000")] ++ [("7", "1800")]).foldl
        (fun t q => (set_goals t q.1 q.2).1) setup_database) = some g ∧
      pythonInt "7" = some g.weekly_exercise_goal ∧
      pythonInt "1800" = some g.daily_calorie_limit :=
  C2_replace_goal_last_wins setup_database [("5", "2000")] ("7", "1800") (by decide)

/-- C3: a valid activity submission succeeds, appends exactly one record
with the submitted fields at the end of the stored list, and its id is
distinct from every previously stored id. -/
theorem C3_log_activity_appends (s : Store) (n dur i t : String) (d : Int)
    (hs : Reachable s) (hn : n ≠ "") (hi : i ≠ "")
    (hd : pythonInt dur = some d) :
    (log_activity s n dur i t).2 = none ∧
    list_activities (log_activity s n dur i t).1 =
      list_activities s ++ [⟨s.nextActivityId, n, d, i, t⟩] ∧
    ∀ r ∈ list_activities s, r.id ≠ s.nextActivityId := by
  have hb := reachable_activityIdsBounded s hs
  rw [log_activity_success s n dur i t d hn hi hd]
  refine ⟨rfl, ?_, ?_⟩
  · simp [list_activities, insert_activity]
  · intro r hr
    exact Nat.ne_of_lt (hb r hr)

/-- Witness for C3: submitting ("Running", "30", "High") on the fresh store. -/
theorem C3_log_activity_appends_witness :
    (log_activity setup_database "Running" "30" "High" "2024-12-09").2 = none ∧
    list_activities (log_activity setup_database "Running" "30" "High" "2024-12-09").1 =
      list_activities setup_database ++ [⟨1, "Running", 30, "High", "2024-12-09"⟩] ∧
    ∀ r ∈ list_activities setup_database, r.id ≠ setup_database.nextActivityId :=
  C3_log_activity_appends setup_database "Running" "30" "High" "2024-12-09" 30
    ⟨[], rfl⟩ (by decide) (by decide) (by decide)

/-- C4: whenever a handler surfaces a validation error dialog, the
persisted store is exactly what it was before the submission. -/
theorem C4_validation_failure_no_write (s : Store)
    (n dur i t fo ca cb pr ft t2 e cl : String)
    (h1 : (log_activity s n dur i t).2.isSome)
    (h2 : (log_nutrition s fo ca cb pr ft t2).2.isSome)
    (h3 : (set_goals s e cl).2.isSome) :
    (log_activity s n dur i t).1 = s ∧
    (log_nutrition s fo ca cb pr ft t2).1 = s ∧
    (set_goals s e cl).1 = s :=
  ⟨log_activity_err_unchanged s n dur i t h1,
   log_nutrition_err_unchanged s fo ca cb pr ft t2 h2,
   set_goals_err_unchanged s e cl h3⟩

/-- Witness for C4: a non-numeric duration, a missing food item, and an
empty goals form all leave the fresh store untouched. -/
theorem C4_validation_failure_no_write_witness :
    (log_activity setup_database "Run" "abc" "High" "2024-12-09").1 = setup_database ∧
    (log_nutrition setup_database "" "95" "" "" "" "2024-12-09").1 = setup_database ∧
    (set_goals setup_database "" "").1 = setup_database :=
  C4_validation_failure_no_write setup_database
    "Run" "abc" "High" "2024-12-09" "" "95" "" "" "" "2024-12-09" "" ""
    (by decide) (by decide) (by decide)

/-- C5: a nutrition submission with empty carbs/protein/fats and valid
food item and calories succeeds and stores 0 for each macro. -/
theorem C5_empty_macros_zero (s : Store) (fo ca t : String) (c : Int)
    (hf : fo ≠ "") (hc : pythonInt ca = some c) :
    (log_nutrition s fo ca "" "" "" t).2 = none ∧
    (log_nutrition s fo ca "" "" "" t).1.nutrition =
      s.nutrition ++ [⟨s.nextNutritionId, fo, c, 0, 0, 0, t⟩] := by
  rw [log_nutrition_success s fo ca "" "" "" t c 0 0 0 hf hc rfl rfl rfl]
  exact ⟨rfl, by simp [insert_nutrition]⟩

/-- Witness for C5: submitting ("Apple", "95", "", "", ""). -/
theorem C5_empty_macros_zero_witness :
    (log_nutrition setup_database "Apple" "95" "" "" "" "2024-12-09").2 = none ∧
    (log_nutrition setup_database "Apple" "95" "" "" "" "2024-12-09").1.nutrition =
      setup_database.nutrition ++ [⟨1, "Apple", 95, 0, 0, 0, "2024-12-09"⟩] :=
  C5_empty_macros_zero setup_database "Apple" "95" "2024-12-09" 95
    (by decide) (by decide)

/-- C6: on any run from the empty schema, the summary query returns the
no-goal result exactly when no goal submission in the run passed
validation. -/
theorem C6_latest_goal_none_iff (ops : List Op) :
    latest_goal (run ops) = none ↔ ∀ op ∈ ops, goalSucceeds op = false := by
  rw [latest_goal_eq_none_iff]
  unfold run
  rw [foldl_goals_empty_iff]
  simp [setup_database]

/-- Witness for C6 on a concrete run with one failed goal submission. -/
theorem C6_latest_goal_none_iff_witness :
    latest_goal (run [.setGoals "" ""]) = none ↔
      ∀ op ∈ [Op.setGoals "" ""], goalSucceeds op = false :=
  C6_latest_goal_none_iff [.setGoals "" ""]

/-- C7: the view-refresh formatters emit one fixed-format line per
record and, on an empty table, exactly the designated no-records line;
the concrete activity row ("Running", 30, "High", today) renders as
`Running - 30 min - High - <today>`. -/
theorem C7_view_refresh_format (rs : List ActivityRow) (ns : List NutritionRow)
    (today : String) (hr : rs ≠ []) (hn : ns ≠ []) :
    load_activities [] = ["No activities logged yet.\n"] ∧
    load_nutrition [] = ["No nutrition records found.\n"] ∧
    load_activities rs = rs.map activityLine ∧
    load_nutrition ns = ns.map nutritionLine ∧
    activityLine ⟨1, "Running", 30, "High", today⟩ =
      "Running - 30 min - High - " ++ today ++ "\n" ∧
    nutritionLine ⟨1, "Apple", 95, 0, 0, 0, today⟩ =
      "Apple - 95 cal - 0g carbs - 0g protein - 0g fats - " ++ today ++ "\n" := by
  refine ⟨rfl, rfl, ?_, ?_, rfl, rfl⟩
  · unfold load_activities
    rw [if_neg (by simpa using hr)]
  · unfold load_nutrition
    rw [if_neg (by simpa using hn)]

/-- Witness for C7 at one-element record lists. -/
theorem C7_view_refresh_format_witness :
    load_activities [] = ["No activities logged yet.\n"] ∧
    load_nutrition [] = ["No nutrition records found.\n"] ∧
    load_activities [⟨1, "Running", 30, "High", "2024-12-09"⟩] =
      [⟨1, "Running", 30, "High", "2024-12-09"⟩].map activityLine ∧
    load_nutrition [⟨1, "Apple", 95, 0, 0, 0, "2024-12-09"⟩] =
      [⟨1, "Apple", 95, 0, 0, 0, "2024-12-09"⟩].map nutritionLine ∧
    activityLine ⟨1, "Running", 30, "High", "2024-12-09"⟩ =
      "Running - 30 min - High - " ++ "2024-12-09" ++ "\n" ∧
    nutritionLine ⟨1, "Apple", 95, 0, 0, 0, "2024-12-09"⟩ =
      "Apple - 95 cal - 0g carbs - 0g protein - 0g fats - " ++ "2024-12-09" ++ "\n" :=
  C7_view_refresh_format [⟨1, "Running", 30, "High", "2024-12-09"⟩]
    [⟨1, "Apple", 95, 0, 0, 0, "2024-12-09"⟩] "2024-12-09"
    (by decide) (by decide)

/-- C8: when any required activity field is empty, `log_activity` shows
the MissingField dialog and leaves the store untouched — even when the
duration string is also non-numeric, so MissingField takes precedence
over NotNumeric. -/
theorem C8_missing_field_precedence (s : Store) (n dur i t : String)
    (h : n = "" ∨ dur = "" ∨ i = "") :
    log_activity s n dur i t = (s, some .MissingField) := by
  unfold log_activity
  rw [if_pos h]

/-- Witness for C8: empty name together with the non-parseable duration
"abc" still yields MissingField, not NotNumeric. -/
theorem C8_missing_field_precedence_witness :
    pythonInt "abc" = none ∧
    log_activity setup_database "" "abc" "High" "2024-12-09" =
      (setup_database, some .MissingField) :=
  ⟨by decide,
   C8_missing_field_precedence setup_database "" "abc" "High" "2024-12-09"
     (Or.inl rfl)⟩

/-- C9: each handler writes only its own table: activity submissions
leave nutrition and goals untouched, nutrition submissions leave
activities and goals untouched, goal submissions leave activities and
nutrition untouched. -/
theorem C9_frame_per_table (s : Store)
    (n dur i t fo ca cb pr ft t2 e cl : String) :
    (log_activity s n dur i t).1.nutrition = s.nutrition ∧
    (log_activity s n dur i t).1.goals = s.goals ∧
    (log_nutrition s fo ca cb pr ft t2).1.activities = s.activities ∧
    (log_nutrition s fo ca cb pr ft t2).1.goals = s.goals ∧
    (set_goals s e cl).1.activities = s.activities ∧
    (set_goals s e cl).1.nutrition = s.nutrition :=
  ⟨(log_activity_frame s n dur i t).1,
   (log_activity_frame s n dur i t).2.1,
   (log_nutrition_frame s fo ca cb pr ft t2).1,
   (log_nutrition_frame s fo ca cb pr ft t2).2.1,
   (set_goals_frame s e cl).1,
   (set_goals_frame s e cl).2.1⟩

/-- C10: the required-field check is raw string non-emptiness with no
trimming: a whitespace-only activity name or food item passes validation
and is stored verbatim. -/
theorem C10_whitespace_accepted (s : Store) (n dur i fo ca t : String)
    (d c : Int)
    (hn : n ≠ "") (_hnw : n.data.all Char.isWhitespace)
    (hi : i ≠ "") (hd : pythonInt dur = some d)
    (hf : fo ≠ "") (_hfw : fo.data.all Char.isWhitespace)
    (hc : pythonInt ca = some c) :
    (log_activity s n dur i t).2 = none ∧
    (log_activity s n dur i t).1.activities =
      s.activities ++ [⟨s.nextActivityId, n, d, i, t⟩] ∧
    (log_nutrition s fo ca "" "" "" t).2 = none ∧
    (log_nutrition s fo ca "" "" "" t).1.nutrition =
      s.nutrition ++ [⟨s.nextNutritionId, fo, c, 0, 0, 0, t⟩] := by
  rw [log_activity_success s n dur i t d hn hi hd,
      log_nutrition_success s fo ca "" "" "" t c 0 0 0 hf hc rfl rfl rfl]
  exact ⟨rfl, by simp [insert_activity], rfl, by simp [insert_nutrition]⟩

/-- Witness for C10: a single-space name and food item are accepted and
stored as " " verbatim. -/
theorem C10_whitespace_accepted_witness :
    (log_activity setup_database " " "30" "High" "2024-12-09").2 = none ∧
    (log_activity setup_database " " "30" "High" "2024-12-09").1.activities =
      setup_database.activities ++ [⟨1, " ", 30, "High", "2024-12-09"⟩] ∧
    (log_nutrition setup_database " " "95" "" "" "" "2024-12-09").2 = none ∧
    (log_nutrition setup_database " " "95" "" "" "" "2024-12-09").1.nutrition =
      setup_database.nutrition ++ [⟨1, " ", 95, 0, 0, 0, "2024-12-09"⟩] :=
  C10_whitespace_accepted setup_database " " "30" "High" " " "95" "2024-12-09" 30 95
    (by decide) (by decide) (by decide) (by decide) (by decide) (by decide) (by decide)

end FitnessTracker
